import Mathlib

/-!
Shallow embedding of `src/lib/Frontend/Frontend.cpp` (the Swift frontend
driver: `CompilerInstance::setup` and `CompilerInstance::doIt`), together
with theorems settling the specification claims about it.

External collaborators (filesystem access, the Clang importer constructor,
`Lexer::isIdentifier`, and the parser `parseIntoTranslationUnit`) are opaque
services from the point of view of this file; they are modelled as oracle
fields of an `Environment` record.  Caller-supplied in-memory buffers
(`CompilerInvocation::getInputBuffers`, the code-completion buffer) are
modelled as references into an explicit `Heap`, so that the deep-copy /
no-aliasing behaviour of `llvm::MemoryBuffer::getMemBufferCopy` is visible
in the embedding: `setup` reads the heap and never writes it.
-/

/-- A top-level parsed declaration; its contents are never inspected by the
driver, only counted and ordered. -/
abbrev Decl := Nat

/-- `SourceFile::SourceKind` from the source: Library | Main | REPL | SIL. -/
inductive SourceKind
  | Library
  | Main
  | REPL
  | SIL
deriving DecidableEq, Repr

/-- An owned memory buffer: raw text plus a display identifier
(mirrors `llvm::MemoryBuffer`). -/
structure MemBuffer where
  contents : String
  identifier : String
deriving DecidableEq, Repr

/-- `llvm::MemoryBuffer::getMemBufferCopy(buf->getBuffer(), buf->getBufferIdentifier())`:
a fresh buffer holding a copy of the bytes and the display identifier. -/
def memBufferCopy (b : MemBuffer) : MemBuffer :=
  { contents := b.contents, identifier := b.identifier }

/-- Caller-owned memory: in-memory input buffers live here and are referred
to by `Nat` references.  The registry must copy out of this heap, never
alias into it. -/
abbrev Heap := Nat → MemBuffer

/-- `CompilerInvocation`: the configuration value consumed by `setup`/`doIt`.
In-memory buffers and the code-completion buffer are heap references. -/
structure CompilerInvocation where
  langOptions : List String
  importSearchPaths : List String
  frameworkSearchPaths : List String
  sdkPath : String
  targetTriple : String
  runtimeIncludePath : String
  clangModuleCachePath : String
  extraClangArgs : List String
  moduleName : String
  parseOnly : Bool
  parseStdlib : Bool
  inputKind : SourceKind
  inputFilenames : List String
  inputBuffers : List Nat
  codeCompletionPoint : Option (Nat × Nat)
  isImmediate : Bool
  delayedFunctionBodyParsing : Bool
deriving Repr

/-- `Invocation.isCodeCompletion()`: a completion point was supplied. -/
def CompilerInvocation.isCodeCompletion (inv : CompilerInvocation) : Bool :=
  inv.codeCompletionPoint.isSome

/-- The module loaders `setup` can place in the context's loader chain. -/
inductive ModuleLoader
  | sourceLoader (enableResolver : Bool)
  | serializedModuleLoader
  | clangImporter
deriving DecidableEq, Repr

/-- Diagnostics emitted by `setup` (the sink only records them). -/
inductive Diag
  | error_clang_importer_not_linked_in
  | error_clang_importer_create_fail
  | error_open_input_file (path : String) (cause : String)
deriving DecidableEq, Repr

/-- A translation unit (`TranslationUnit`), the value registered in
`Context->LoadedModules`.  Identified here by its name identifier. -/
structure TranslationUnit where
  name : String
deriving DecidableEq, Repr

/-- Assoc-map assignment with overwrite, the behaviour of
`LoadedModules[ID.str()] = TU` on `llvm::StringMap`: replace the existing
binding for the key if present, otherwise append a new binding. -/
def mapAssign (m : List (String × TranslationUnit)) (k : String)
    (v : TranslationUnit) : List (String × TranslationUnit) :=
  match m with
  | [] => [(k, v)]
  | (k', v') :: rest =>
    if k' = k then (k, v) :: rest else (k', v') :: mapAssign rest k v

/-- Assoc-map lookup (`LoadedModules` lookup by module name). -/
def lookupModule (m : List (String × TranslationUnit)) (k : String) :
    Option TranslationUnit :=
  match m with
  | [] => none
  | (k', v') :: rest => if k' = k then some v' else lookupModule rest k

/-- The `ASTContext` state the driver touches: search paths, the ordered
module-loader chain (each entry tagged with the `isClang` flag passed to
`addModuleLoader`), and the loaded-module registry. -/
structure ASTContext where
  importSearchPaths : List String
  moduleLoaders : List (ModuleLoader × Bool)
  loadedModules : List (String × TranslationUnit)
deriving Repr

/-- A freshly constructed `ASTContext` (from `Context.reset(new ASTContext ...)`). -/
def ASTContext.new : ASTContext :=
  { importSearchPaths := [], moduleLoaders := [], loadedModules := [] }

/-- `ASTContext::addModuleLoader(loader, isClang)`: appends to the chain. -/
def ASTContext.addModuleLoader (ctx : ASTContext) (l : ModuleLoader)
    (isClang : Bool) : ASTContext :=
  { ctx with moduleLoaders := ctx.moduleLoaders ++ [(l, isClang)] }

/-- The `SourceManager`: owns ingested buffers (a buffer's id is its index),
plus the code-completion point and the hashbang marker. -/
structure SourceManager where
  buffers : List MemBuffer
  codeCompletionPoint : Option (Nat × Nat)
  hashbangBufferID : Option Nat
deriving Repr

/-- `SourceMgr->AddNewSourceBuffer`: take ownership of a buffer, returning
its new id (ids are assigned in increasing order of ingestion). -/
def SourceManager.addNewSourceBuffer (mgr : SourceManager) (b : MemBuffer) :
    Nat × SourceManager :=
  (mgr.buffers.length, { mgr with buffers := mgr.buffers ++ [b] })

/-- The text of the buffer with a given id. -/
def SourceManager.bufferContents (mgr : SourceManager) (bid : Nat) : String :=
  (mgr.buffers.getD bid { contents := "", identifier := "" }).contents

/-- The mutable state of a `CompilerInstance`. -/
structure CompilerInstance where
  invocation : CompilerInvocation
  context : ASTContext
  sourceMgr : SourceManager
  bufferIDs : List Nat
  theSILModule : Bool
  diagnostics : List Diag
deriving Repr

/-- A freshly constructed `CompilerInstance` (before `setup`). -/
def CompilerInstance.initial : CompilerInstance :=
  { invocation :=
      { langOptions := [], importSearchPaths := [], frameworkSearchPaths := []
        sdkPath := "", targetTriple := "", runtimeIncludePath := ""
        clangModuleCachePath := "", extraClangArgs := [], moduleName := ""
        parseOnly := false, parseStdlib := false, inputKind := SourceKind.Library
        inputFilenames := [], inputBuffers := [], codeCompletionPoint := none
        isImmediate := false, delayedFunctionBodyParsing := false }
    context := ASTContext.new
    sourceMgr := { buffers := [], codeCompletionPoint := none, hashbangBufferID := none }
    bufferIDs := []
    theSILModule := false
    diagnostics := [] }

/-- The external collaborators, as oracles.
`fs` is `llvm::MemoryBuffer::getFileOrSTDIN` (error message or contents);
`clangImporterCtor` is `swift::getClangImporterCtor()` (absent when Clang
support is not linked in; when present, applying it to the invocation's
configuration either constructs an importer or fails);
`isIdentifier` is `Lexer::isIdentifier`;
`parseBatches kind text` is the sequence of top-level-declaration batches
that successive `parseIntoTranslationUnit` calls produce for a buffer with
the given text in a file of the given kind (the final call reports done). -/
structure Environment where
  fs : String → Except String String
  clangImporterCtor : Option (CompilerInvocation → Bool)
  isIdentifier : String → Bool
  parseBatches : SourceKind → String → List (List Decl)

/-- Result of `setup`: the C++ returns `true` on failure after diagnosing;
an `assert` violation aborts.  Each constructor carries the instance state
at that point. -/
inductive SetupResult
  | ok (inst : CompilerInstance)
  | error (inst : CompilerInstance)
  | assertionFailure (inst : CompilerInstance)
deriving Repr

/-- The instance state carried by a `SetupResult`. -/
def SetupResult.inst : SetupResult → CompilerInstance
  | .ok i => i
  | .error i => i
  | .assertionFailure i => i

/-- The input-file ingestion loop of `setup` (lines 95-107): open each path
in order; the first failure diagnoses `error_open_input_file` and returns
`true` immediately; otherwise ownership of the buffer moves to the
`SourceMgr` and its id is recorded. -/
def ingestInputFiles (env : Environment) (inst : CompilerInstance) :
    List String → Except CompilerInstance CompilerInstance
  | [] => .ok inst
  | file :: rest =>
    match env.fs file with
    | .error cause =>
      .error { inst with
        diagnostics := inst.diagnostics ++ [Diag.error_open_input_file file cause] }
    | .ok text =>
      let idMgr := inst.sourceMgr.addNewSourceBuffer { contents := text, identifier := file }
      ingestInputFiles env
        { inst with sourceMgr := idMgr.2, bufferIDs := inst.bufferIDs ++ [idMgr.1] } rest

/-- The in-memory-buffer ingestion loop of `setup` (lines 109-115): each
caller buffer is deep-copied (`getMemBufferCopy`) out of the caller's heap
into registry-owned storage. -/
def ingestInputBuffers (h : Heap) (inst : CompilerInstance) :
    List Nat → CompilerInstance
  | [] => inst
  | r :: rest =>
    let idMgr := inst.sourceMgr.addNewSourceBuffer (memBufferCopy (h r))
    ingestInputBuffers h
      { inst with sourceMgr := idMgr.2, bufferIDs := inst.bufferIDs ++ [idMgr.1] } rest

/-- `CompilerInstance::setup(Invok)`.  The returned `Heap` is the caller's
memory after the call: `setup` only ever reads it (all its writes go to
freshly allocated, registry-owned buffers), so every return site returns
the heap it was given. -/
def CompilerInstance.setup (env : Environment) (h : Heap)
    (inst0 : CompilerInstance) (invok : CompilerInvocation) :
    SetupResult × Heap :=
  let inst := { inst0 with invocation := invok }
  -- Context.reset(new ASTContext(...)); search paths; two default loaders.
  let ctx := { ASTContext.new with importSearchPaths := invok.importSearchPaths }
  let ctx := ctx.addModuleLoader (ModuleLoader.sourceLoader (!invok.isImmediate)) false
  let ctx := ctx.addModuleLoader ModuleLoader.serializedModuleLoader false
  let inst := { inst with context := ctx }
  -- If the user has specified an SDK, wire up the Clang module importer.
  let sdkStep : SetupResult ⊕ CompilerInstance :=
    if invok.sdkPath ≠ "" then
      match env.clangImporterCtor with
      | none => .inl (.error { inst with
          diagnostics := inst.diagnostics ++ [Diag.error_clang_importer_not_linked_in] })
      | some ctor =>
        if ctor invok then
          .inr { inst with context := inst.context.addModuleLoader ModuleLoader.clangImporter true }
        else
          .inl (.error { inst with
            diagnostics := inst.diagnostics ++ [Diag.error_clang_importer_create_fail] })
    else .inr inst
  match sdkStep with
  | .inl r => (r, h)
  | .inr inst =>
    -- Add the runtime include path.
    let inst := { inst with context := { inst.context with
      importSearchPaths := inst.context.importSearchPaths ++ [invok.runtimeIncludePath] } }
    -- assert(Lexer::isIdentifier(Invocation.getModuleName()))
    if !env.isIdentifier invok.moduleName then (.assertionFailure inst, h)
    else
      -- if (Invocation.getInputKind() == SourceFile::SIL) createSILModule();
      let inst := if invok.inputKind = SourceKind.SIL then
        { inst with theSILModule := true } else inst
      -- Code-completion buffer: copy, register, record the completion point.
      let inst :=
        match invok.codeCompletionPoint with
        | some refOff =>
          let idMgr := inst.sourceMgr.addNewSourceBuffer (memBufferCopy (h refOff.1))
          { inst with
            sourceMgr := { idMgr.2 with codeCompletionPoint := some (idMgr.1, refOff.2) }
            bufferIDs := inst.bufferIDs ++ [idMgr.1] }
        | none => inst
      match ingestInputFiles env inst invok.inputFilenames with
      | .error instE => (.error instE, h)
      | .ok inst => (.ok (ingestInputBuffers h inst invok.inputBuffers), h)

/-- Which `DelayedParsingCallbacks` `doIt` installs. -/
inductive DelayedCBKind
  | codeComplete
  | alwaysDelayed
deriving DecidableEq, Repr

/-- The pump-loop state of the Main/SIL branch of `doIt`: the source file's
declaration list, `CurTUElem` (the checked-cursor), the trace of
`performTypeChecking(file, start)` calls as `(start, declCountAtCall)`
pairs, and the iteration count. -/
structure PumpSt where
  decls : List Decl
  curTUElem : Nat
  checks : List (Nat × Nat)
  iterations : Nat
deriving Repr

/-- The pump state entering the do-while loop: `unsigned CurTUElem = 0;`
over an empty declaration list, before any checking. -/
def pumpInit : PumpSt := { decls := [], curTUElem := 0, checks := [], iterations := 0 }

/-- One iteration of the do-while loop (lines 175-186): append the batch the
parser produced, then (unless parse-only) check exactly the suffix
`[CurTUElem, Decls.size())`, then advance `CurTUElem` to `Decls.size()`. -/
def pumpStep (parseOnly : Bool) (st : PumpSt) (batch : List Decl) : PumpSt :=
  let decls := st.decls ++ batch
  { decls := decls
    curTUElem := decls.length
    checks := if parseOnly then st.checks else st.checks ++ [(st.curTUElem, decls.length)]
    iterations := st.iterations + 1 }

/-- The do-while pump loop, driven by the parser's batch plan: each call to
`parseIntoTranslationUnit` consumes the next batch, and `Done` is set on the
last one.  The loop body always runs at least once. -/
def pumpLoop (parseOnly : Bool) (st : PumpSt) : List (List Decl) → PumpSt
  | [] => pumpStep parseOnly st []
  | [b] => pumpStep parseOnly st b
  | b :: b2 :: rest => pumpLoop parseOnly (pumpStep parseOnly st b) (b2 :: rest)

/-- The Library-mode loop of `doIt` (lines 144-150): parse each registered
buffer to completion in buffer-id order, appending its declarations into the
single shared file; `assert(Done && "Parser returned early?")` fails (giving
`none`) if the parser did not finish the buffer in one call. -/
def parseLibraryBuffers (env : Environment) (mgr : SourceManager)
    (acc : List Decl) : List Nat → Option (List Decl)
  | [] => some acc
  | bid :: rest =>
    let plan := env.parseBatches SourceKind.Library (mgr.bufferContents bid)
    if plan.tail.isEmpty then
      parseLibraryBuffers env mgr (acc ++ plan.headD []) rest
    else none

/-- The observable outcome of `doIt`: the translation unit, the module
registry after registration, the file's declarations, the final
checked-cursor, the trace of `performTypeChecking` calls, the pump
iteration count, the hashbang marker, and whether the delayed-parsing pass
ran. -/
structure RunResult where
  tu : TranslationUnit
  loadedModules : List (String × TranslationUnit)
  fileKind : SourceKind
  decls : List Decl
  curTUElem : Nat
  checks : List (Nat × Nat)
  iterations : Nat
  hashbangBufferID : Option Nat
  delayedParsingRan : Bool
deriving Repr

/-- Result of `doIt`: either a normal return or an `assert` abort; both
carry the observable state at that point. -/
inductive DoItResult
  | ok (r : RunResult)
  | assertionFailure (r : RunResult)
deriving Repr

/-- The observable state carried by a `DoItResult`. -/
def DoItResult.result : DoItResult → RunResult
  | .ok r => r
  | .assertionFailure r => r

/-- The `performTypeChecking` call trace of a `DoItResult`. -/
def DoItResult.checks (r : DoItResult) : List (Nat × Nat) :=
  r.result.checks

/-- `CompilerInstance::doIt()`. -/
def CompilerInstance.doIt (env : Environment) (inst : CompilerInstance) : DoItResult :=
  let kind := inst.invocation.inputKind
  let id := inst.invocation.moduleName
  let tu : TranslationUnit := { name := id }
  -- Context->LoadedModules[ID.str()] = TU;
  let loaded := mapAssign inst.context.loadedModules id tu
  let base : RunResult :=
    { tu := tu, loadedModules := loaded, fileKind := kind, decls := []
      curTUElem := 0, checks := [], iterations := 0, hashbangBufferID := none
      delayedParsingRan := false }
  if kind = SourceKind.REPL then .ok base
  else
    let delayedCB : Option DelayedCBKind :=
      if inst.invocation.isCodeCompletion then some DelayedCBKind.codeComplete
      else if inst.invocation.delayedFunctionBodyParsing then some DelayedCBKind.alwaysDelayed
      else none
    if kind = SourceKind.Library then
      -- Parse all of the files into one big translation unit.
      match parseLibraryBuffers env inst.sourceMgr [] inst.bufferIDs with
      | none => .assertionFailure base
      | some decls =>
        -- Finally, if enabled, type check the whole thing in one go.
        let checks : List (Nat × Nat) :=
          if inst.invocation.parseOnly then [] else [(0, decls.length)]
        .ok { base with decls := decls, checks := checks
                        delayedParsingRan := delayedCB.isSome }
    else
      -- assert(Kind == SourceFile::Main || Kind == SourceFile::SIL) holds here.
      -- assert(BufferIDs.size() == 1 && "This mode only allows one input");
      if inst.bufferIDs.length = 1 then
        let bufferID := inst.bufferIDs.headD 0
        let hashbang : Option Nat :=
          if kind = SourceKind.Main then some bufferID else none
        let plan := env.parseBatches kind (inst.sourceMgr.bufferContents bufferID)
        let fin := pumpLoop inst.invocation.parseOnly pumpInit plan
        .ok { base with decls := fin.decls, curTUElem := fin.curTUElem
                        checks := fin.checks, iterations := fin.iterations
                        hashbangBufferID := hashbang
                        delayedParsingRan := delayedCB.isSome }
      else .assertionFailure base

/-- The batch plan the parser follows for the single buffer of the
Main/SIL branch of `doIt`. -/
def mainPlan (env : Environment) (inst : CompilerInstance) : List (List Decl) :=
  env.parseBatches inst.invocation.inputKind
    (inst.sourceMgr.bufferContents (inst.bufferIDs.headD 0))

/-- The `(start, declCountAtCall)` trace a pump starting with cursor `c`
produces on a batch plan when the cursor is advanced to the declaration
count after every iteration: each call checks exactly the newly parsed
suffix. -/
def cursorTrace (c : Nat) : List (List Decl) → List (Nat × Nat)
  | [] => []
  | b :: rest => (c, c + b.length) :: cursorTrace (c + b.length) rest

/-- `n` consecutive buffer ids starting at `s` (what a run of
`AddNewSourceBuffer` calls hands out). -/
def idRange : Nat → Nat → List Nat
  | _, 0 => []
  | s, n + 1 => s :: idRange (s + 1) n

/-- The buffer that ingesting path `f` stores: contents from the
filesystem oracle, display identifier the path itself. -/
def fsBuf (env : Environment) (f : String) : MemBuffer :=
  match env.fs f with
  | .ok text => { contents := text, identifier := f }
  | .error _ => { contents := "", identifier := f }

/-- The filesystem oracle can open path `f`. -/
def fsOk (env : Environment) (f : String) : Bool :=
  match env.fs f with
  | .ok _ => true
  | .error _ => false

/-- The SDK / Clang-importer phase of `setup` does not fail: either no SDK
path is configured, or the importer constructor is linked in and
constructs successfully on this configuration. -/
def clangSetupSucceeds (env : Environment) (inv : CompilerInvocation) : Bool :=
  if inv.sdkPath = "" then true
  else
    match env.clangImporterCtor with
    | some ctor => ctor inv
    | none => false

/-- The declarations Library mode accumulates: each buffer's single
parsed batch, concatenated in buffer-id (registration) order. -/
def libraryDecls (env : Environment) (mgr : SourceManager) (bids : List Nat) : List Decl :=
  (bids.map (fun bid =>
    (env.parseBatches SourceKind.Library (mgr.bufferContents bid)).headD [])).flatten

/-- The registry copies of the code-completion buffer that `setup` makes
(one when a completion point is supplied, none otherwise). -/
def ccBuffers (h : Heap) (inv : CompilerInvocation) : List MemBuffer :=
  match inv.codeCompletionPoint with
  | some refOff => [memBufferCopy (h refOff.1)]
  | none => []

/-- The loader chain `setup` builds: the two default loaders in order, then
the Clang importer exactly when an SDK path is configured and the importer
constructor is linked in and constructs successfully. -/
def expectedLoaders (env : Environment) (inv : CompilerInvocation) :
    List (ModuleLoader × Bool) :=
  [(ModuleLoader.sourceLoader (!inv.isImmediate), false),
   (ModuleLoader.serializedModuleLoader, false)] ++
    (if inv.sdkPath ≠ "" ∧
        (env.clangImporterCtor.map (fun ctor => ctor inv)).getD false = true
     then [(ModuleLoader.clangImporter, true)] else [])

/-- The instance a fully successful `setup` on a fresh `CompilerInstance`
produces: loaders and search paths in the context, the completion copy
registered first, then the input files, then the in-memory copies. -/
def setupExpected (env : Environment) (h : Heap) (inv : CompilerInvocation) :
    CompilerInstance :=
  { invocation := inv
    context :=
      { importSearchPaths := inv.importSearchPaths ++ [inv.runtimeIncludePath]
        moduleLoaders := expectedLoaders env inv
        loadedModules := [] }
    sourceMgr :=
      { buffers := ccBuffers h inv ++ inv.inputFilenames.map (fsBuf env)
          ++ inv.inputBuffers.map (fun r => memBufferCopy (h r))
        codeCompletionPoint := inv.codeCompletionPoint.map (fun refOff => (0, refOff.2))
        hashbangBufferID := none }
    bufferIDs := idRange 0 ((ccBuffers h inv).length + inv.inputFilenames.length
      + inv.inputBuffers.length)
    theSILModule := decide (inv.inputKind = SourceKind.SIL)
    diagnostics := [] }

/-- The instance inside either outcome of the file-ingestion loop. -/
def exInst : Except CompilerInstance CompilerInstance → CompilerInstance
  | .ok i => i
  | .error i => i

/-- The instance state `setup` returns when everything before file
ingestion succeeds, the paths in `good` open, and the next path `bad`
does not: the buffers of `good` (after any completion copy) are ingested,
nothing later is, and the open failure for `bad` was diagnosed. -/
def setupFailExpected (env : Environment) (h : Heap) (inv : CompilerInvocation)
    (good : List String) (bad cause : String) : CompilerInstance :=
  { invocation := inv
    context :=
      { importSearchPaths := inv.importSearchPaths ++ [inv.runtimeIncludePath]
        moduleLoaders := expectedLoaders env inv
        loadedModules := [] }
    sourceMgr :=
      { buffers := ccBuffers h inv ++ good.map (fsBuf env)
        codeCompletionPoint := inv.codeCompletionPoint.map (fun refOff => (0, refOff.2))
        hashbangBufferID := none }
    bufferIDs := idRange 0 ((ccBuffers h inv).length + good.length)
    theSILModule := decide (inv.inputKind = SourceKind.SIL)
    diagnostics := [Diag.error_open_input_file bad cause] }

/-- Concrete caller heap used to instantiate the theorems. -/
def wHeap : Heap := fun _ => { contents := "B", identifier := "I" }

/-- A second concrete heap agreeing with `wHeap` except at reference 99. -/
def wHeap2 : Heap := fun n =>
  if n = 99 then { contents := "mut", identifier := "x" } else { contents := "B", identifier := "I" }

/-- Concrete collaborator oracles used to instantiate the theorems:
path `p3` is unreadable, every other path opens; the Clang importer is
linked in and always constructs; any nonempty name is an identifier; a
Library-mode buffer parses in one batch, a Main/SIL buffer in two. -/
def wEnv : Environment :=
  { fs := fun p => if p = "p3" then .error "unreadable" else .ok ("text-" ++ p)
    clangImporterCtor := some (fun _ => true)
    isIdentifier := fun s => !s.isEmpty
    parseBatches := fun kind _ =>
      match kind with
      | SourceKind.Library => [[1]]
      | _ => [[10], [20]] }

/-- `wEnv` with the Clang importer capability absent (not linked in). -/
def wEnvNoClang : Environment := { wEnv with clangImporterCtor := none }

/-- A concrete invocation: Main kind, module name `main`. -/
def wInvMain : CompilerInvocation :=
  { CompilerInstance.initial.invocation with moduleName := "main", inputKind := SourceKind.Main }

/-- A concrete instance ready for the Main-mode pump: one registered
buffer. -/
def wInstMain : CompilerInstance :=
  { CompilerInstance.initial with
      invocation := wInvMain
      sourceMgr := { buffers := [{ contents := "ab", identifier := "main.swift" }]
                     codeCompletionPoint := none, hashbangBufferID := none }
      bufferIDs := [0] }

/-- A concrete instance ready for Library mode: two registered buffers. -/
def wInstLib : CompilerInstance :=
  { CompilerInstance.initial with
      invocation := { wInvMain with inputKind := SourceKind.Library }
      sourceMgr := { buffers := [{ contents := "a", identifier := "a.swift" },
                                 { contents := "b", identifier := "b.swift" }]
                     codeCompletionPoint := none, hashbangBufferID := none }
      bufferIDs := [0, 1] }

/-- `wInstMain` with parse-only requested. -/
def wInstParseOnly : CompilerInstance :=
  { wInstMain with invocation := { wInvMain with parseOnly := true } }

/-- `wInstMain` with two registered buffers (a caller-contract violation
for the single-buffer modes). -/
def wInstTwoBuffers : CompilerInstance :=
  { wInstMain with
      sourceMgr := { buffers := [{ contents := "ab", identifier := "main.swift" },
                                 { contents := "cd", identifier := "x.swift" }]
                     codeCompletionPoint := none, hashbangBufferID := none }
      bufferIDs := [0, 1] }

/-- A concrete invocation for `setup`: five input paths with the third
unreadable under `wEnv`. -/
def wInvFiles : CompilerInvocation :=
  { CompilerInstance.initial.invocation with
      moduleName := "m", inputFilenames := ["p1", "p2", "p3", "p4", "p5"] }

/-- A concrete invocation with an SDK path set. -/
def wInvSDK : CompilerInvocation :=
  { CompilerInstance.initial.invocation with moduleName := "m", sdkPath := "/sdk" }

/-- A concrete invocation with one in-memory buffer (heap reference 5) and
a completion request on heap reference 3. -/
def wInvBuffers : CompilerInvocation :=
  { CompilerInstance.initial.invocation with
      moduleName := "m", inputBuffers := [5], codeCompletionPoint := some (3, 1) }

/-- A concrete invocation exercising the full registration order: a
completion request, one input file, one in-memory buffer. -/
def wInvOrder : CompilerInvocation :=
  { CompilerInstance.initial.invocation with
      moduleName := "m", inputFilenames := ["p1"], inputBuffers := [5]
      codeCompletionPoint := some (3, 7) }

/-- A parse-only pump never records a `performTypeChecking` call. -/
theorem pumpLoop_parseOnly_checks : ∀ (plan : List (List Decl)) (st : PumpSt),
    (pumpLoop true st plan).checks = st.checks := by
  intro plan
  induction plan with
  | nil => intro st; simp [pumpLoop, pumpStep]
  | cons b rest ih =>
    intro st
    cases rest with
    | nil => simp [pumpLoop, pumpStep]
    | cons b2 rest2 =>
      have h := ih (pumpStep true st b)
      simp only [pumpLoop] at h ⊢
      rw [h]
      simp [pumpStep]

/-- Closed form of the Main/SIL pump with checking enabled, starting from a
state whose cursor equals its declaration count: it appends every batch,
advances the cursor to the final count, records the `cursorTrace` of
checking calls, and iterates once per batch. -/
theorem pumpLoop_run : ∀ (plan : List (List Decl)), plan ≠ [] →
    ∀ (ds : List Decl) (cks : List (Nat × Nat)) (n : Nat),
    pumpLoop false { decls := ds, curTUElem := ds.length, checks := cks, iterations := n } plan =
      { decls := ds ++ plan.flatten
        curTUElem := ds.length + plan.flatten.length
        checks := cks ++ cursorTrace ds.length plan
        iterations := n + plan.length } := by
  intro plan
  induction plan with
  | nil => intro hne; cases hne rfl
  | cons b rest ih =>
    intro _ ds cks n
    cases rest with
    | nil =>
      simp [pumpLoop, pumpStep, cursorTrace]
    | cons b2 rest2 =>
      have step : pumpLoop false
          { decls := ds, curTUElem := ds.length, checks := cks, iterations := n }
          (b :: b2 :: rest2) =
          pumpLoop false
            { decls := ds ++ b, curTUElem := (ds ++ b).length
              checks := cks ++ [(ds.length, ds.length + b.length)], iterations := n + 1 }
            (b2 :: rest2) := by
        simp [pumpLoop, pumpStep]
      rw [step, ih (by simp)]
      simp [cursorTrace, List.append_assoc, List.length_append]
      omega

/-- Every entry of a `cursorTrace` is a well-formed range inside
`[c, c + total)`. -/
theorem cursorTrace_bounds : ∀ (plan : List (List Decl)) (c : Nat) (p : Nat × Nat),
    p ∈ cursorTrace c plan → c ≤ p.1 ∧ p.1 ≤ p.2 ∧ p.2 ≤ c + plan.flatten.length := by
  intro plan
  induction plan with
  | nil => intro c p hp; simp [cursorTrace] at hp
  | cons b rest ih =>
    intro c p hp
    simp only [cursorTrace, List.mem_cons] at hp
    rcases hp with hp | hp
    · subst hp
      simp only [List.flatten_cons, List.length_append]
      omega
    · have h := ih (c + b.length) p hp
      simp only [List.flatten_cons, List.length_append]
      omega

/-- Successive `cursorTrace` entries chain: each call starts where the
previous one stopped (the cursor is advanced to the declaration count after
every iteration and never moves backwards). -/
theorem cursorTrace_chain : ∀ (plan : List (List Decl)) (c i : Nat),
    i + 1 < (cursorTrace c plan).length →
    ((cursorTrace c plan).getD (i + 1) (0, 0)).1 = ((cursorTrace c plan).getD i (0, 0)).2 := by
  intro plan
  induction plan with
  | nil => intro c i h; simp [cursorTrace] at h
  | cons b rest ih =>
    intro c i h
    cases i with
    | zero =>
      cases rest with
      | nil => simp [cursorTrace] at h
      | cons b2 rest2 => simp [cursorTrace]
    | succ j =>
      simp only [cursorTrace, List.length_cons] at h
      simp only [cursorTrace, List.getD_cons_succ]
      exact ih (c + b.length) j (by omega)

/-- A plan whose batches are all nonempty has no more batches than total
declarations. -/
theorem length_le_flatten_length : ∀ (plan : List (List Decl)),
    (∀ b ∈ plan, b ≠ []) → plan.length ≤ plan.flatten.length := by
  intro plan
  induction plan with
  | nil => intro _; simp
  | cons b rest ih =>
    intro hb
    have hbne : b ≠ [] := hb b (by simp)
    have h1 : 0 < b.length := List.length_pos.mpr hbne
    have h2 := ih (fun x hx => hb x (by simp [hx]))
    simp only [List.flatten_cons, List.length_append, List.length_cons]
    omega

/-- Splitting a run of consecutive ids. -/
theorem idRange_add : ∀ (m s n : Nat),
    idRange s (m + n) = idRange s m ++ idRange (s + m) n := by
  intro m
  induction m with
  | zero => intro s n; simp [idRange]
  | succ k ih =>
    intro s n
    have h1 : k + 1 + n = (k + n) + 1 := by omega
    rw [h1]
    simp only [idRange, ih (s + 1) n, List.cons_append]
    have h2 : s + 1 + k = s + (k + 1) := by omega
    rw [h2]

/-- The Library-mode parse loop on buffers the parser finishes in one call:
it succeeds and appends each buffer's declarations in buffer-id order. -/
theorem parseLibraryBuffers_run (env : Environment) (mgr : SourceManager) :
    ∀ (bids : List Nat),
    (∀ bid ∈ bids,
      (env.parseBatches SourceKind.Library (mgr.bufferContents bid)).tail.isEmpty = true) →
    ∀ acc, parseLibraryBuffers env mgr acc bids = some (acc ++ libraryDecls env mgr bids) := by
  intro bids
  induction bids with
  | nil => intro _ acc; simp [parseLibraryBuffers, libraryDecls]
  | cons bid rest ih =>
    intro hdone acc
    have h1 := hdone bid (by simp)
    rw [parseLibraryBuffers]
    simp only [h1, if_true]
    rw [ih (fun b hb => hdone b (by simp [hb]))]
    simp [libraryDecls, List.append_assoc]

/-- The file-ingestion loop when every path opens: it appends one buffer
per path, in order, and hands out consecutive ids. -/
theorem ingestInputFiles_ok (env : Environment) : ∀ (files : List String),
    (∀ f ∈ files, fsOk env f = true) →
    ∀ inst : CompilerInstance,
    ingestInputFiles env inst files = .ok
      { inst with
        sourceMgr := { inst.sourceMgr with
          buffers := inst.sourceMgr.buffers ++ files.map (fsBuf env) }
        bufferIDs := inst.bufferIDs ++ idRange inst.sourceMgr.buffers.length files.length } := by
  intro files
  induction files with
  | nil => intro _ inst; simp [ingestInputFiles, idRange]
  | cons f rest ih =>
    intro hok inst
    have h1 : fsOk env f = true := hok f (by simp)
    rw [ingestInputFiles]
    cases hfs : env.fs f with
    | error c => rw [fsOk, hfs] at h1; simp at h1
    | ok text =>
      simp only [SourceManager.addNewSourceBuffer]
      rw [ih (fun x hx => hok x (by simp [hx]))]
      have hbuf : fsBuf env f = { contents := text, identifier := f } := by
        rw [fsBuf, hfs]
      simp [hbuf, idRange, List.append_assoc]

/-- The file-ingestion loop is fail-fast: with every path before `bad`
openable and `bad` unreadable, it stops at `bad`, reports
`error_open_input_file` for it, keeps the buffers of the paths before it,
and ingests nothing for the paths after it. -/
theorem ingestInputFiles_fail (env : Environment) (bad cause : String)
    (rest : List String) (hbad : env.fs bad = .error cause) : ∀ (good : List String),
    (∀ f ∈ good, fsOk env f = true) →
    ∀ inst : CompilerInstance,
    ingestInputFiles env inst (good ++ bad :: rest) = .error
      { inst with
        sourceMgr := { inst.sourceMgr with
          buffers := inst.sourceMgr.buffers ++ good.map (fsBuf env) }
        bufferIDs := inst.bufferIDs ++ idRange inst.sourceMgr.buffers.length good.length
        diagnostics := inst.diagnostics ++ [Diag.error_open_input_file bad cause] } := by
  intro good
  induction good with
  | nil =>
    intro _ inst
    simp only [List.nil_append]
    rw [ingestInputFiles, hbad]
    simp [idRange]
  | cons f rest2 ih =>
    intro hok inst
    have h1 : fsOk env f = true := hok f (by simp)
    rw [List.cons_append, ingestInputFiles]
    cases hfs : env.fs f with
    | error c => rw [fsOk, hfs] at h1; simp at h1
    | ok text =>
      simp only [SourceManager.addNewSourceBuffer]
      rw [ih (fun x hx => hok x (by simp [hx]))]
      have hbuf : fsBuf env f = { contents := text, identifier := f } := by
        rw [fsBuf, hfs]
      simp [hbuf, idRange, List.append_assoc]

/-- The in-memory-buffer ingestion loop: appends a deep copy of each
referenced caller buffer, in order, with consecutive ids. -/
theorem ingestInputBuffers_run (h : Heap) : ∀ (rs : List Nat) (inst : CompilerInstance),
    ingestInputBuffers h inst rs =
      { inst with
        sourceMgr := { inst.sourceMgr with
          buffers := inst.sourceMgr.buffers ++ rs.map (fun r => memBufferCopy (h r)) }
        bufferIDs := inst.bufferIDs ++ idRange inst.sourceMgr.buffers.length rs.length } := by
  intro rs
  induction rs with
  | nil => intro inst; simp [ingestInputBuffers, idRange]
  | cons r rest ih =>
    intro inst
    rw [ingestInputBuffers]
    simp only [SourceManager.addNewSourceBuffer]
    rw [ih]
    simp [idRange, List.append_assoc]

/-- Splitting a consecutive id run at the front. -/
theorem idRange_succ_split (nf nb : Nat) :
    idRange 0 (1 + nf + nb) = 0 :: (idRange 1 nf ++ idRange (nf + 1) nb) := by
  have h1 : 1 + nf + nb = 1 + (nf + nb) := by omega
  rw [h1, idRange_add 1 0 (nf + nb)]
  have h2 : nf + 1 = 1 + nf := by omega
  rw [h2]
  simp [idRange, idRange_add nf 1 nb]

/-- Fully successful `setup` on a fresh instance: the Clang phase passes,
the module name is an identifier, and every input path opens.  The result
is `setupExpected` and the caller's heap is untouched. -/
theorem setup_run_ok (env : Environment) (h : Heap) (inv : CompilerInvocation)
    (hclang : clangSetupSucceeds env inv = true)
    (hid : env.isIdentifier inv.moduleName = true)
    (hfiles : ∀ f ∈ inv.inputFilenames, fsOk env f = true) :
    CompilerInstance.setup env h CompilerInstance.initial inv =
      (SetupResult.ok (setupExpected env h inv), h) := by
  by_cases hsdk : inv.sdkPath = ""
  · cases hcc : inv.codeCompletionPoint with
    | none =>
      by_cases hsil : inv.inputKind = SourceKind.SIL
      · simp only [CompilerInstance.setup, hsdk, hcc, hsil, CompilerInstance.initial,
          ASTContext.new, ASTContext.addModuleLoader, SourceManager.addNewSourceBuffer,
          hid, ingestInputFiles_ok env inv.inputFilenames hfiles, ingestInputBuffers_run,
          setupExpected, expectedLoaders, ccBuffers]
        simp [hsdk, hcc, hsil, idRange_add, List.length_map]
      · simp only [CompilerInstance.setup, hsdk, hcc, CompilerInstance.initial,
          ASTContext.new, ASTContext.addModuleLoader, SourceManager.addNewSourceBuffer,
          hid, ingestInputFiles_ok env inv.inputFilenames hfiles, ingestInputBuffers_run,
          setupExpected, expectedLoaders, ccBuffers]
        simp [hsdk, hcc, hsil, idRange_add, List.length_map]
    | some refOff =>
      by_cases hsil : inv.inputKind = SourceKind.SIL
      · simp only [CompilerInstance.setup, hsdk, hcc, hsil, CompilerInstance.initial,
          ASTContext.new, ASTContext.addModuleLoader, SourceManager.addNewSourceBuffer,
          hid, ingestInputFiles_ok env inv.inputFilenames hfiles, ingestInputBuffers_run,
          setupExpected, expectedLoaders, ccBuffers]
        simp [hsdk, hcc, hsil, idRange_succ_split, List.length_map]
      · simp only [CompilerInstance.setup, hsdk, hcc, CompilerInstance.initial,
          ASTContext.new, ASTContext.addModuleLoader, SourceManager.addNewSourceBuffer,
          hid, ingestInputFiles_ok env inv.inputFilenames hfiles, ingestInputBuffers_run,
          setupExpected, expectedLoaders, ccBuffers]
        simp [hsdk, hcc, hsil, idRange_succ_split, List.length_map]
  · rw [clangSetupSucceeds, if_neg hsdk] at hclang
    cases hctor : env.clangImporterCtor with
    | none => rw [hctor] at hclang; simp at hclang
    | some ctor =>
      rw [hctor] at hclang
      have hc : ctor inv = true := hclang
      cases hcc : inv.codeCompletionPoint with
      | none =>
        by_cases hsil : inv.inputKind = SourceKind.SIL
        · simp only [CompilerInstance.setup, hcc, hsil, hctor, hc, CompilerInstance.initial,
            ASTContext.new, ASTContext.addModuleLoader, SourceManager.addNewSourceBuffer,
            hid, ingestInputFiles_ok env inv.inputFilenames hfiles, ingestInputBuffers_run,
            setupExpected, expectedLoaders, ccBuffers]
          simp [hsdk, hcc, hsil, hctor, hc, idRange_add, List.length_map]
        · simp only [CompilerInstance.setup, hcc, hctor, hc, CompilerInstance.initial,
            ASTContext.new, ASTContext.addModuleLoader, SourceManager.addNewSourceBuffer,
            hid, ingestInputFiles_ok env inv.inputFilenames hfiles, ingestInputBuffers_run,
            setupExpected, expectedLoaders, ccBuffers]
          simp [hsdk, hcc, hsil, hctor, hc, idRange_add, List.length_map]
      | some refOff =>
        by_cases hsil : inv.inputKind = SourceKind.SIL
        · simp only [CompilerInstance.setup, hcc, hsil, hctor, hc, CompilerInstance.initial,
            ASTContext.new, ASTContext.addModuleLoader, SourceManager.addNewSourceBuffer,
            hid, ingestInputFiles_ok env inv.inputFilenames hfiles, ingestInputBuffers_run,
            setupExpected, expectedLoaders, ccBuffers]
          simp [hsdk, hcc, hsil, hctor, hc, idRange_succ_split, List.length_map]
        · simp only [CompilerInstance.setup, hcc, hctor, hc, CompilerInstance.initial,
            ASTContext.new, ASTContext.addModuleLoader, SourceManager.addNewSourceBuffer,
            hid, ingestInputFiles_ok env inv.inputFilenames hfiles, ingestInputBuffers_run,
            setupExpected, expectedLoaders, ccBuffers]
          simp [hsdk, hcc, hsil, hctor, hc, idRange_succ_split, List.length_map]

/-- File ingestion never touches the compilation context (it only moves
buffers into the source manager and records ids and diagnostics). -/
theorem ingestInputFiles_context (env : Environment) : ∀ (files : List String)
    (inst : CompilerInstance),
    (exInst (ingestInputFiles env inst files)).context = inst.context := by
  intro files
  induction files with
  | nil => intro inst; simp [ingestInputFiles, exInst]
  | cons f rest ih =>
    intro inst
    rw [ingestInputFiles]
    cases hfs : env.fs f with
    | error c => simp [exInst]
    | ok text => rw [ih]

/-- Context preservation, error outcome of file ingestion. -/
theorem ingestInputFiles_error_context (env : Environment) (files : List String)
    (inst instE : CompilerInstance) (heq : ingestInputFiles env inst files = .error instE) :
    instE.context = inst.context := by
  have hctx := ingestInputFiles_context env files inst
  rw [heq] at hctx
  exact hctx

/-- Context preservation, success outcome of file ingestion. -/
theorem ingestInputFiles_okctx (env : Environment) (files : List String)
    (inst instE : CompilerInstance) (heq : ingestInputFiles env inst files = .ok instE) :
    instE.context = inst.context := by
  have hctx := ingestInputFiles_context env files inst
  rw [heq] at hctx
  exact hctx

/-- C4: whatever happens after the loader phase, the chain `setup` leaves in
the context is the two default loaders in order, plus the Clang importer
exactly when an SDK path is configured and the importer capability is
present and constructs successfully. -/
theorem C4_loader_chain (env : Environment) (h : Heap) (inst0 : CompilerInstance)
    (inv : CompilerInvocation) :
    ((CompilerInstance.setup env h inst0 inv).1.inst).context.moduleLoaders =
      expectedLoaders env inv := by
  by_cases hsdk : inv.sdkPath = ""
  · simp only [CompilerInstance.setup, hsdk, ne_eq, not_true_eq_false, if_false,
      ASTContext.addModuleLoader, ASTContext.new]
    cases hident : env.isIdentifier inv.moduleName with
    | false =>
      simp [hident, SetupResult.inst, expectedLoaders, hsdk]
    | true =>
      simp only [hident, Bool.not_true, Bool.false_eq_true, if_false]
      split
      · next instE heq =>
        rw [SetupResult.inst, ingestInputFiles_error_context env _ _ _ heq]
        split <;> split <;> simp [expectedLoaders, hsdk]
      · next instY heq =>
        rw [SetupResult.inst, ingestInputBuffers_run]
        rw [ingestInputFiles_okctx env _ _ _ heq]
        split <;> split <;> simp [expectedLoaders, hsdk]
  · simp only [CompilerInstance.setup, ne_eq, hsdk, not_false_eq_true, if_true,
      ASTContext.addModuleLoader, ASTContext.new]
    cases hctor : env.clangImporterCtor with
    | none =>
      simp [SetupResult.inst, expectedLoaders, hsdk, hctor]
    | some ctor =>
      cases hcinv : ctor inv with
      | false =>
        simp [hcinv, SetupResult.inst, expectedLoaders, hsdk, hctor]
      | true =>
        simp only [hcinv, if_true]
        cases hident : env.isIdentifier inv.moduleName with
        | false =>
          simp [hident, SetupResult.inst, expectedLoaders, hsdk, hctor, hcinv]
        | true =>
          simp only [hident, Bool.not_true, Bool.false_eq_true, if_false]
          split
          · next instE heq =>
            rw [SetupResult.inst, ingestInputFiles_error_context env _ _ _ heq]
            split <;> split <;> simp [expectedLoaders, hsdk, hctor, hcinv]
          · next instY heq =>
            rw [SetupResult.inst, ingestInputBuffers_run]
            rw [ingestInputFiles_okctx env _ _ _ heq]
            split <;> split <;> simp [expectedLoaders, hsdk, hctor, hcinv]

/-- The first of `1 + n` consecutive ids from 0 is id 0. -/
theorem idRange_zero_succ (n : Nat) : idRange 0 (1 + n) = 0 :: idRange 1 n := by
  have h1 : 1 + n = n + 1 := by omega
  rw [h1]
  simp [idRange]

/-- `setup` when everything before file ingestion succeeds and the file
list is `good ++ bad :: rest` with `good` openable and `bad` not: the
result is the fail-fast error state `setupFailExpected` and the caller's
heap is untouched. -/
theorem setup_run_fail (env : Environment) (h : Heap) (inv : CompilerInvocation)
    (good : List String) (bad cause : String) (rest : List String)
    (hclang : clangSetupSucceeds env inv = true)
    (hid : env.isIdentifier inv.moduleName = true)
    (hfiles : inv.inputFilenames = good ++ bad :: rest)
    (hgood : ∀ f ∈ good, fsOk env f = true)
    (hbad : env.fs bad = .error cause) :
    CompilerInstance.setup env h CompilerInstance.initial inv =
      (SetupResult.error (setupFailExpected env h inv good bad cause), h) := by
  by_cases hsdk : inv.sdkPath = ""
  · cases hcc : inv.codeCompletionPoint with
    | none =>
      by_cases hsil : inv.inputKind = SourceKind.SIL
      · simp only [CompilerInstance.setup, hsdk, hcc, hsil, hfiles, CompilerInstance.initial,
          ASTContext.new, ASTContext.addModuleLoader, SourceManager.addNewSourceBuffer,
          hid, ingestInputFiles_fail env bad cause rest hbad good hgood,
          setupFailExpected, expectedLoaders, ccBuffers]
        simp [hsdk, hcc, hsil]
      · simp only [CompilerInstance.setup, hsdk, hcc, hfiles, CompilerInstance.initial,
          ASTContext.new, ASTContext.addModuleLoader, SourceManager.addNewSourceBuffer,
          hid, ingestInputFiles_fail env bad cause rest hbad good hgood,
          setupFailExpected, expectedLoaders, ccBuffers]
        simp [hsdk, hcc, hsil]
    | some refOff =>
      by_cases hsil : inv.inputKind = SourceKind.SIL
      · simp only [CompilerInstance.setup, hsdk, hcc, hsil, hfiles, CompilerInstance.initial,
          ASTContext.new, ASTContext.addModuleLoader, SourceManager.addNewSourceBuffer,
          hid, ingestInputFiles_fail env bad cause rest hbad good hgood,
          setupFailExpected, expectedLoaders, ccBuffers]
        simp [hsdk, hcc, hsil, idRange_zero_succ]
      · simp only [CompilerInstance.setup, hsdk, hcc, hfiles, CompilerInstance.initial,
          ASTContext.new, ASTContext.addModuleLoader, SourceManager.addNewSourceBuffer,
          hid, ingestInputFiles_fail env bad cause rest hbad good hgood,
          setupFailExpected, expectedLoaders, ccBuffers]
        simp [hsdk, hcc, hsil, idRange_zero_succ]
  · rw [clangSetupSucceeds, if_neg hsdk] at hclang
    cases hctor : env.clangImporterCtor with
    | none => rw [hctor] at hclang; simp at hclang
    | some ctor =>
      rw [hctor] at hclang
      have hc : ctor inv = true := hclang
      cases hcc : inv.codeCompletionPoint with
      | none =>
        by_cases hsil : inv.inputKind = SourceKind.SIL
        · simp only [CompilerInstance.setup, hcc, hsil, hfiles, hctor, hc, CompilerInstance.initial,
            ASTContext.new, ASTContext.addModuleLoader, SourceManager.addNewSourceBuffer,
            hid, ingestInputFiles_fail env bad cause rest hbad good hgood,
            setupFailExpected, expectedLoaders, ccBuffers]
          simp [hsdk, hcc, hsil, hctor, hc]
        · simp only [CompilerInstance.setup, hcc, hfiles, hctor, hc, CompilerInstance.initial,
            ASTContext.new, ASTContext.addModuleLoader, SourceManager.addNewSourceBuffer,
            hid, ingestInputFiles_fail env bad cause rest hbad good hgood,
            setupFailExpected, expectedLoaders, ccBuffers]
          simp [hsdk, hcc, hsil, hctor, hc]
      | some refOff =>
        by_cases hsil : inv.inputKind = SourceKind.SIL
        · simp only [CompilerInstance.setup, hcc, hsil, hfiles, hctor, hc, CompilerInstance.initial,
            ASTContext.new, ASTContext.addModuleLoader, SourceManager.addNewSourceBuffer,
            hid, ingestInputFiles_fail env bad cause rest hbad good hgood,
            setupFailExpected, expectedLoaders, ccBuffers]
          simp [hsdk, hcc, hsil, hctor, hc, idRange_zero_succ]
        · simp only [CompilerInstance.setup, hcc, hfiles, hctor, hc, CompilerInstance.initial,
            ASTContext.new, ASTContext.addModuleLoader, SourceManager.addNewSourceBuffer,
            hid, ingestInputFiles_fail env bad cause rest hbad good hgood,
            setupFailExpected, expectedLoaders, ccBuffers]
          simp [hsdk, hcc, hsil, hctor, hc, idRange_zero_succ]

/-- C5: `setup` is fail-fast on input acquisition.  For a configured path
list `good ++ bad :: rest` where every path in `good` opens and `bad` is
the first unreadable path, `setup` returns a failure whose diagnostic
reports `bad` and the underlying cause; the paths before `bad` remain
ingested (one buffer each, in order, after any completion copy) and no
buffer is ingested for `bad`, the paths after it, or the in-memory
buffers. -/
theorem C5_fail_fast (env : Environment) (h : Heap) (inv : CompilerInvocation)
    (good : List String) (bad cause : String) (rest : List String)
    (hclang : clangSetupSucceeds env inv = true)
    (hid : env.isIdentifier inv.moduleName = true)
    (hfiles : inv.inputFilenames = good ++ bad :: rest)
    (hgood : ∀ f ∈ good, fsOk env f = true)
    (hbad : env.fs bad = .error cause) :
    ∃ instE, CompilerInstance.setup env h CompilerInstance.initial inv =
        (SetupResult.error instE, h) ∧
      instE.diagnostics = [Diag.error_open_input_file bad cause] ∧
      instE.sourceMgr.buffers = ccBuffers h inv ++ good.map (fsBuf env) ∧
      instE.bufferIDs = idRange 0 ((ccBuffers h inv).length + good.length) := by
  refine ⟨setupFailExpected env h inv good bad cause,
    setup_run_fail env h inv good bad cause rest hclang hid hfiles hgood hbad, rfl, rfl, rfl⟩

/-- C5 witness: five paths with the third (`p3`) unreadable under `wEnv`:
setup fails reporting `p3`, and exactly the two buffers for `p1`, `p2`
exist. -/
theorem C5_fail_fast_witness :
    (clangSetupSucceeds wEnv wInvFiles = true ∧
     wEnv.isIdentifier wInvFiles.moduleName = true ∧
     wInvFiles.inputFilenames = ["p1", "p2"] ++ "p3" :: ["p4", "p5"] ∧
     (∀ f ∈ ["p1", "p2"], fsOk wEnv f = true) ∧
     wEnv.fs "p3" = .error "unreadable") ∧
    ∃ instE, CompilerInstance.setup wEnv wHeap CompilerInstance.initial wInvFiles =
        (SetupResult.error instE, wHeap) ∧
      instE.diagnostics = [Diag.error_open_input_file "p3" "unreadable"] ∧
      instE.sourceMgr.buffers = ccBuffers wHeap wInvFiles ++ ["p1", "p2"].map (fsBuf wEnv) ∧
      instE.bufferIDs = idRange 0 ((ccBuffers wHeap wInvFiles).length + (["p1", "p2"] : List String).length) :=
  ⟨⟨by decide, by decide, by decide, by decide, rfl⟩,
   C5_fail_fast wEnv wHeap wInvFiles ["p1", "p2"] "p3" "unreadable" ["p4", "p5"]
     (by decide) (by decide) (by decide) (by decide) rfl⟩

/-- C6: an SDK path configured while the foreign-interop capability is not
linked into the build makes `setup` fail with the configuration
diagnostic, halting before input acquisition: no completion, file, or
in-memory buffer is ingested and the buffer-id list is empty. -/
theorem C6_sdk_without_interop (env : Environment) (h : Heap) (inv : CompilerInvocation)
    (hsdk : inv.sdkPath ≠ "") (hctor : env.clangImporterCtor = none) :
    ∃ instE, CompilerInstance.setup env h CompilerInstance.initial inv =
        (SetupResult.error instE, h) ∧
      instE.diagnostics = [Diag.error_clang_importer_not_linked_in] ∧
      instE.sourceMgr.buffers = [] ∧ instE.bufferIDs = [] := by
  simp only [CompilerInstance.setup, ne_eq, hsdk, not_false_eq_true, if_true, hctor,
    CompilerInstance.initial, ASTContext.new, ASTContext.addModuleLoader]
  exact ⟨_, rfl, by simp, rfl, rfl⟩

/-- C6 witness: `setup` with SDK path `/sdk` and no Clang importer linked
in fails with the configuration diagnostic and an empty buffer list. -/
theorem C6_sdk_without_interop_witness :
    (wInvSDK.sdkPath ≠ "" ∧ wEnvNoClang.clangImporterCtor = none) ∧
    ∃ instE, CompilerInstance.setup wEnvNoClang wHeap CompilerInstance.initial wInvSDK =
        (SetupResult.error instE, wHeap) ∧
      instE.diagnostics = [Diag.error_clang_importer_not_linked_in] ∧
      instE.sourceMgr.buffers = [] ∧ instE.bufferIDs = [] :=
  ⟨⟨by decide, rfl⟩,
   C6_sdk_without_interop wEnvNoClang wHeap wInvSDK (by decide) rfl⟩

/-- C7: caller-contract violations abort rather than return recoverable
errors.  First, a module name that is not a valid identifier makes `setup`
abort via its assertion (stated with no SDK path, so that the loader phase
does not return first).  Second, in the single-buffer pipeline modes (Main
or SIL) a registered-buffer count other than one makes `doIt` abort via
its assertion before any pump iteration or checking call. -/
theorem C7_caller_contract_aborts :
    (∀ (env : Environment) (h : Heap) (inst0 : CompilerInstance) (inv : CompilerInvocation),
      inv.sdkPath = "" → env.isIdentifier inv.moduleName = false →
      ∃ instA, CompilerInstance.setup env h inst0 inv =
        (SetupResult.assertionFailure instA, h)) ∧
    (∀ (env : Environment) (inst : CompilerInstance),
      (inst.invocation.inputKind = SourceKind.Main ∨
        inst.invocation.inputKind = SourceKind.SIL) →
      inst.bufferIDs.length ≠ 1 →
      ∃ r, CompilerInstance.doIt env inst = DoItResult.assertionFailure r ∧
        r.iterations = 0 ∧ r.checks = []) := by
  constructor
  · intro env h inst0 inv hsdk hident
    simp only [CompilerInstance.setup, hsdk, hident]
    simp
  · intro env inst hkind hbuf
    rcases hkind with hk | hk <;>
      simp only [CompilerInstance.doIt, hk, reduceCtorEq, if_false, hbuf] <;>
      exact ⟨_, rfl, rfl, rfl⟩

/-- C7 witness: the fresh invocation's empty module name is not an
identifier under `wEnv`, so `setup` aborts; and a Main-mode instance with
two registered buffers makes `doIt` abort before pumping. -/
theorem C7_caller_contract_aborts_witness :
    (∃ instA, CompilerInstance.setup wEnv wHeap CompilerInstance.initial
        CompilerInstance.initial.invocation = (SetupResult.assertionFailure instA, wHeap)) ∧
    (∃ r, CompilerInstance.doIt wEnv wInstTwoBuffers = DoItResult.assertionFailure r ∧
      r.iterations = 0 ∧ r.checks = []) :=
  ⟨C7_caller_contract_aborts.1 wEnv wHeap CompilerInstance.initial
      CompilerInstance.initial.invocation rfl (by decide),
   C7_caller_contract_aborts.2 wEnv wInstTwoBuffers (Or.inl rfl) (by decide)⟩

/-- Lookup after overwrite-assignment returns the assigned value, whatever
was bound before. -/
theorem lookupModule_mapAssign : ∀ (m : List (String × TranslationUnit)) (k : String)
    (v : TranslationUnit), lookupModule (mapAssign m k v) k = some v := by
  intro m k v
  induction m with
  | nil => simp [mapAssign, lookupModule]
  | cons p rest ih =>
    obtain ⟨a, b⟩ := p
    by_cases hk : a = k
    · simp [mapAssign, hk, lookupModule]
    · simp [mapAssign, hk, lookupModule, ih]

/-- `doIt` registers the freshly created translation unit under the
configured module name, in every branch, by overwrite-assignment. -/
theorem doIt_loadedModules (env : Environment) (inst : CompilerInstance) :
    (CompilerInstance.doIt env inst).result.loadedModules =
      mapAssign inst.context.loadedModules inst.invocation.moduleName
        { name := inst.invocation.moduleName } := by
  simp only [CompilerInstance.doIt]
  split
  · rfl
  · split
    · split <;> rfl
    · split <;> rfl

/-- C9: module registration under an already-registered name
unconditionally overwrites (last writer wins): lookup after
`mapAssign` returns the new value for any prior registry, and after
`doIt` starts, looking up the configured module name returns exactly the
translation unit `doIt` just registered, whatever the registry held
before. -/
theorem C9_last_writer_wins :
    (∀ (m : List (String × TranslationUnit)) (k : String) (v : TranslationUnit),
      lookupModule (mapAssign m k v) k = some v) ∧
    (∀ (env : Environment) (inst : CompilerInstance),
      lookupModule ((CompilerInstance.doIt env inst).result.loadedModules)
          inst.invocation.moduleName = some { name := inst.invocation.moduleName }) := by
  refine ⟨lookupModule_mapAssign, ?_⟩
  intro env inst
  rw [doIt_loadedModules, lookupModule_mapAssign]

/-- C3: with parse-only requested, `doIt` never calls
`performTypeChecking`: the checking trace is empty for every input kind,
buffer population, and parser behaviour. -/
theorem C3_parse_only_skips_checking (env : Environment) (inst : CompilerInstance)
    (hpo : inst.invocation.parseOnly = true) :
    (CompilerInstance.doIt env inst).checks = [] := by
  simp only [CompilerInstance.doIt, DoItResult.checks]
  split
  · rfl
  · split
    · split <;> simp [DoItResult.result, hpo]
    · split <;> simp [DoItResult.result, hpo, pumpLoop_parseOnly_checks, pumpInit]

/-- C3 witness: the Main-mode instance with parse-only set produces an
empty checking trace. -/
theorem C3_parse_only_skips_checking_witness :
    wInstParseOnly.invocation.parseOnly = true ∧
    (CompilerInstance.doIt wEnv wInstParseOnly).checks = [] :=
  ⟨rfl, C3_parse_only_skips_checking wEnv wInstParseOnly rfl⟩

/-- Closed form of the checking-enabled pump from the initial state. -/
theorem pumpLoop_run_init (plan : List (List Decl)) (hne : plan ≠ []) :
    pumpLoop false pumpInit plan =
      { decls := plan.flatten, curTUElem := plan.flatten.length
        checks := cursorTrace 0 plan, iterations := plan.length } := by
  have h := pumpLoop_run plan hne [] [] 0
  simpa [pumpInit] using h

/-- C1: Main/SIL pump invariants.  For a Main or SIL instance with exactly
one registered buffer, checking enabled, and a parser plan of nonempty
batches totalling `K` declarations: the checked-cursor starts at 0; the
checking-call trace is exactly the cursor trace (each call covers the
suffix from the cursor to the current declaration count, and the cursor is
advanced to that count each iteration); every checked range is
well-formed and stays within `K`, consecutive calls chain (the cursor is
monotonically non-decreasing and never exceeds the declaration count);
the final cursor equals `K`; and the pump iterates between 1 and `K`
times. -/
theorem C1_pump_invariants (env : Environment) (inst : CompilerInstance) (K : Nat)
    (hkind : inst.invocation.inputKind = SourceKind.Main ∨
      inst.invocation.inputKind = SourceKind.SIL)
    (hbuf : inst.bufferIDs.length = 1)
    (hpo : inst.invocation.parseOnly = false)
    (hne : mainPlan env inst ≠ [])
    (hbatch : ∀ b ∈ mainPlan env inst, b ≠ [])
    (hK : (mainPlan env inst).flatten.length = K) :
    pumpInit.curTUElem = 0 ∧
    ∃ r, CompilerInstance.doIt env inst = DoItResult.ok r ∧
      r.checks = cursorTrace 0 (mainPlan env inst) ∧
      (∀ p ∈ r.checks, p.1 ≤ p.2 ∧ p.2 ≤ K) ∧
      (∀ i, i + 1 < r.checks.length →
        (r.checks.getD (i + 1) (0, 0)).1 = (r.checks.getD i (0, 0)).2) ∧
      r.curTUElem = K ∧ r.decls.length = K ∧
      1 ≤ r.iterations ∧ r.iterations ≤ K := by
  refine ⟨rfl, ?_⟩
  simp only [CompilerInstance.doIt]
  rw [if_neg (by rcases hkind with hk | hk <;> simp [hk]),
    if_neg (by rcases hkind with hk | hk <;> simp [hk]), if_pos hbuf, hpo]
  rw [show env.parseBatches inst.invocation.inputKind
      (inst.sourceMgr.bufferContents (inst.bufferIDs.headD 0)) = mainPlan env inst from rfl]
  rw [pumpLoop_run_init (mainPlan env inst) hne]
  refine ⟨_, rfl, rfl, ?_, ?_, hK, hK, ?_, ?_⟩
  · intro p hp
    have hb := cursorTrace_bounds (mainPlan env inst) 0 p hp
    omega
  · intro i hi
    exact cursorTrace_chain (mainPlan env inst) 0 i hi
  · exact List.length_pos.mpr hne
  · have hlen := length_le_flatten_length (mainPlan env inst) hbatch
    show (mainPlan env inst).length ≤ K
    omega

/-- C1 witness: the Main-mode instance under `wEnv` has plan
`[[10], [20]]` (K = 2): two pump iterations, checking calls
`[(0, 1), (1, 2)]`, final cursor 2. -/
theorem C1_pump_invariants_witness :
    pumpInit.curTUElem = 0 ∧
    ∃ r, CompilerInstance.doIt wEnv wInstMain = DoItResult.ok r ∧
      r.checks = cursorTrace 0 (mainPlan wEnv wInstMain) ∧
      (∀ p ∈ r.checks, p.1 ≤ p.2 ∧ p.2 ≤ 2) ∧
      (∀ i, i + 1 < r.checks.length →
        (r.checks.getD (i + 1) (0, 0)).1 = (r.checks.getD i (0, 0)).2) ∧
      r.curTUElem = 2 ∧ r.decls.length = 2 ∧
      1 ≤ r.iterations ∧ r.iterations ≤ 2 :=
  C1_pump_invariants wEnv wInstMain 2 (Or.inl rfl) rfl rfl
    (by decide) (by decide) (by decide)

/-- C2: Library mode parses every registered buffer to completion (given
the parser finishes each in one call), appends each buffer's declarations
in buffer-registration order into the one shared file, and runs semantic
checking exactly once, over the entire file, after all parsing — or not
at all when parse-only is requested. -/
theorem C2_library_single_check (env : Environment) (inst : CompilerInstance)
    (hkind : inst.invocation.inputKind = SourceKind.Library)
    (hdone : ∀ bid ∈ inst.bufferIDs,
      (env.parseBatches SourceKind.Library (inst.sourceMgr.bufferContents bid)).tail.isEmpty
        = true) :
    ∃ r, CompilerInstance.doIt env inst = DoItResult.ok r ∧
      r.decls = libraryDecls env inst.sourceMgr inst.bufferIDs ∧
      r.checks = (if inst.invocation.parseOnly = true then []
        else [(0, (libraryDecls env inst.sourceMgr inst.bufferIDs).length)]) := by
  simp only [CompilerInstance.doIt, hkind, reduceCtorEq, if_false, if_true,
    parseLibraryBuffers_run env inst.sourceMgr inst.bufferIDs hdone, List.nil_append]
  exact ⟨_, rfl, rfl, rfl⟩

/-- C2 witness: the two-buffer Library instance under `wEnv` yields the
two declarations in registration order and exactly one checking call over
the whole file. -/
theorem C2_library_single_check_witness :
    (∀ bid ∈ wInstLib.bufferIDs,
      (wEnv.parseBatches SourceKind.Library (wInstLib.sourceMgr.bufferContents bid)).tail.isEmpty
        = true) ∧
    ∃ r, CompilerInstance.doIt wEnv wInstLib = DoItResult.ok r ∧
      r.decls = libraryDecls wEnv wInstLib.sourceMgr wInstLib.bufferIDs ∧
      r.checks = (if wInstLib.invocation.parseOnly = true then []
        else [(0, (libraryDecls wEnv wInstLib.sourceMgr wInstLib.bufferIDs).length)]) :=
  ⟨by decide, C2_library_single_check wEnv wInstLib rfl (by decide)⟩

/-- C8: in-memory buffer ingestion deep-copies and never aliases caller
memory.  Under the success hypotheses: the heap `setup` hands back is
exactly the caller's heap (all writes went to registry-owned storage);
any heap agreeing with it on the referenced buffers produces the very
same setup result, so mutating or discarding anything else of the
caller's is invisible; and the registered buffers end with byte-for-byte
copies of the caller's in-memory buffers as they were at ingestion
time. -/
theorem C8_deep_copy_no_alias (env : Environment) (h h2 : Heap) (inv : CompilerInvocation)
    (hclang : clangSetupSucceeds env inv = true)
    (hid : env.isIdentifier inv.moduleName = true)
    (hfiles : ∀ f ∈ inv.inputFilenames, fsOk env f = true)
    (hagreecc : ∀ refOff ∈ inv.codeCompletionPoint.toList, h2 refOff.1 = h refOff.1)
    (hagree : ∀ r ∈ inv.inputBuffers, h2 r = h r) :
    (CompilerInstance.setup env h CompilerInstance.initial inv).2 = h ∧
    (CompilerInstance.setup env h2 CompilerInstance.initial inv).1 =
      (CompilerInstance.setup env h CompilerInstance.initial inv).1 ∧
    ∃ instF, CompilerInstance.setup env h CompilerInstance.initial inv =
        (SetupResult.ok instF, h) ∧
      instF.sourceMgr.buffers = ccBuffers h inv ++ inv.inputFilenames.map (fsBuf env)
        ++ inv.inputBuffers.map (fun r => memBufferCopy (h r)) := by
  have e1 := setup_run_ok env h inv hclang hid hfiles
  have e2 := setup_run_ok env h2 inv hclang hid hfiles
  refine ⟨by rw [e1], ?_, ⟨_, e1, rfl⟩⟩
  rw [e1, e2]
  have hccb : ccBuffers h2 inv = ccBuffers h inv := by
    cases hcc : inv.codeCompletionPoint with
    | none => simp [ccBuffers, hcc]
    | some refOff =>
      have hr := hagreecc refOff (by simp [hcc])
      simp [ccBuffers, hcc, hr]
  have hmap : inv.inputBuffers.map (fun r => memBufferCopy (h2 r)) =
      inv.inputBuffers.map (fun r => memBufferCopy (h r)) := by
    apply List.map_congr_left
    intro r hr
    rw [hagree r hr]
  simp [setupExpected, hccb, hmap]

/-- C8 witness: one in-memory buffer (reference 5) and a completion buffer
(reference 3) under `wEnv`; `wHeap2` differs from `wHeap` only at
reference 99. -/
theorem C8_deep_copy_no_alias_witness :
    (CompilerInstance.setup wEnv wHeap CompilerInstance.initial wInvBuffers).2 = wHeap ∧
    (CompilerInstance.setup wEnv wHeap2 CompilerInstance.initial wInvBuffers).1 =
      (CompilerInstance.setup wEnv wHeap CompilerInstance.initial wInvBuffers).1 ∧
    ∃ instF, CompilerInstance.setup wEnv wHeap CompilerInstance.initial wInvBuffers =
        (SetupResult.ok instF, wHeap) ∧
      instF.sourceMgr.buffers = ccBuffers wHeap wInvBuffers
        ++ wInvBuffers.inputFilenames.map (fsBuf wEnv)
        ++ wInvBuffers.inputBuffers.map (fun r => memBufferCopy (wHeap r)) :=
  C8_deep_copy_no_alias wEnv wHeap wHeap2 wInvBuffers (by decide) (by decide)
    (by decide) (by decide) (by decide)

/-- Splitting a consecutive id run starting at 1. -/
theorem idRange_one_add (nf nb : Nat) :
    idRange 1 (nf + nb) = idRange 1 nf ++ idRange (nf + 1) nb := by
  have h := idRange_add nf 1 nb
  rw [Nat.add_comm 1 nf] at h
  exact h

/-- C10: `setup` registers buffers in a fixed order.  With a completion
request present, its duplicated buffer is registered first (id 0, the
head of the buffer-id list), followed by the input files in configuration
order and then the in-memory copies in configuration order, under
consecutive ids; consequently the Library-mode parse (which walks the
buffer-id list in order) takes the completion buffer's declarations
first. -/
theorem C10_registration_order (env : Environment) (h : Heap) (inv : CompilerInvocation)
    (ref off : Nat) (hcc : inv.codeCompletionPoint = some (ref, off))
    (hclang : clangSetupSucceeds env inv = true)
    (hid : env.isIdentifier inv.moduleName = true)
    (hfiles : ∀ f ∈ inv.inputFilenames, fsOk env f = true) :
    ∃ instF, CompilerInstance.setup env h CompilerInstance.initial inv =
        (SetupResult.ok instF, h) ∧
      instF.sourceMgr.buffers = memBufferCopy (h ref) ::
        (inv.inputFilenames.map (fsBuf env) ++
          inv.inputBuffers.map (fun r => memBufferCopy (h r))) ∧
      instF.bufferIDs =
        idRange 0 (1 + inv.inputFilenames.length + inv.inputBuffers.length) ∧
      instF.bufferIDs.headD 0 = 0 ∧
      instF.sourceMgr.bufferContents 0 = (h ref).contents ∧
      libraryDecls env instF.sourceMgr instF.bufferIDs =
        (env.parseBatches SourceKind.Library ((h ref).contents)).headD [] ++
          libraryDecls env instF.sourceMgr
            (idRange 1 (inv.inputFilenames.length + inv.inputBuffers.length)) := by
  refine ⟨_, setup_run_ok env h inv hclang hid hfiles, ?_, ?_, ?_, ?_, ?_⟩
  · simp [setupExpected, ccBuffers, hcc]
  · simp [setupExpected, ccBuffers, hcc]
  · simp only [setupExpected, ccBuffers, hcc, List.length_cons, List.length_nil,
      Nat.zero_add, idRange_succ_split]
    rfl
  · simp [setupExpected, SourceManager.bufferContents, ccBuffers, hcc, memBufferCopy]
  · simp only [setupExpected, ccBuffers, hcc, List.length_cons, List.length_nil,
      Nat.zero_add, idRange_succ_split, idRange_one_add]
    simp [libraryDecls, SourceManager.bufferContents, memBufferCopy]

/-- C10 witness: a completion request (reference 3), one input file, and
one in-memory buffer under `wEnv`: the completion copy is buffer 0 and
heads both the buffer list and the id list. -/
theorem C10_registration_order_witness :
    ∃ instF, CompilerInstance.setup wEnv wHeap CompilerInstance.initial wInvOrder =
        (SetupResult.ok instF, wHeap) ∧
      instF.sourceMgr.buffers = memBufferCopy (wHeap 3) ::
        (wInvOrder.inputFilenames.map (fsBuf wEnv) ++
          wInvOrder.inputBuffers.map (fun r => memBufferCopy (wHeap r))) ∧
      instF.bufferIDs =
        idRange 0 (1 + wInvOrder.inputFilenames.length + wInvOrder.inputBuffers.length) ∧
      instF.bufferIDs.headD 0 = 0 ∧
      instF.sourceMgr.bufferContents 0 = (wHeap 3).contents ∧
      libraryDecls wEnv instF.sourceMgr instF.bufferIDs =
        (wEnv.parseBatches SourceKind.Library ((wHeap 3).contents)).headD [] ++
          libraryDecls wEnv instF.sourceMgr
            (idRange 1 (wInvOrder.inputFilenames.length + wInvOrder.inputBuffers.length)) :=
  C10_registration_order wEnv wHeap wInvOrder 3 7 rfl (by decide) (by decide) (by decide)
